import Mathlib

/-
Verification of the getmail destination/delivery core
(getmailcore/destinations.py and getmailcore/baseclasses.py) against its
natural-language specification.

The Python source is shallowly embedded: Python byte strings (`str` in
Python 2) are modelled as `List Char`, dictionaries as association lists
in insertion order, raised exceptions as `Except` errors carrying the
exception class and message, and file/lock state as explicit record
state.  Each definition is translated from a specific function of the
source, named in its doc comment.
-/

set_option autoImplicit false

namespace GetmailProof

/-- Python byte string, modelled as a list of characters. -/
abbrev PyStr := List Char

/-- Model of Python 2 `str.lower()` for a single character.  Python 2
`str.lower` on byte strings (under the default C locale) lowercases
exactly the ASCII uppercase letters, by adding 32 to the character code. -/
def lowerChar (c : Char) : Char :=
  if 65 ≤ c.toNat ∧ c.toNat ≤ 90 then Char.ofNat (c.toNat + 32) else c

/-- Model of Python 2 `str.lower()`. -/
def lowerStr (s : PyStr) : PyStr := s.map lowerChar

/-- Whether `p` is a leading segment of `s`; model of Python
`s.startswith(p)` (also the primitive used to model `in`, `replace` and
`split`). -/
def startsWithL : PyStr → PyStr → Bool
  | [], _ => true
  | _ :: _, [] => false
  | p :: ps, s :: ss => p = s && startsWithL ps ss

/-- Model of Python `s.endswith(p)`. -/
def endsWithL (p s : PyStr) : Bool := startsWithL p.reverse s.reverse

/-- Model of Python `p in s` (substring containment), which is also the
matching relation of `re.search` for a metacharacter-free pattern. -/
def containsSub (p : PyStr) : PyStr → Bool
  | [] => startsWithL p []
  | c :: s => startsWithL p (c :: s) || containsSub p s

/-- Model of `re.compile(pattern, re.IGNORECASE).search(s)` for a
regex-metacharacter-free pattern, as used by MultiSorter route matching
(destinations.py line 747 with the pattern compiled at line 720): a
case-insensitive unanchored substring match. -/
def reSearchIC (pat s : PyStr) : Bool := containsSub (lowerStr pat) (lowerStr s)

/-- Model of Python `s.split(c)` for a single-character separator `c`.
The recursive result is always nonempty, so prepending to its head via
`headD`/`tail` is exact. -/
def splitAtCh (c : Char) : PyStr → List PyStr
  | [] => [[]]
  | x :: xs =>
    let r := splitAtCh c xs
    if x = c then [] :: r else (x :: r.headD []) :: r.tail

/-- Model of Python `sep.join(pieces)`. -/
def joinWith (sep : PyStr) (pieces : List PyStr) : PyStr :=
  List.intercalate sep pieces

/-- Fuelled worker for `pySplitOn`.  Scans left to right: where the
(nonempty) separator occurs, a piece boundary is produced and the
separator consumed, exactly as Python `s.split(sep)` does. -/
def splitOnAux (sep : PyStr) : Nat → PyStr → List PyStr
  | _, [] => [[]]
  | 0, s => [s]
  | f + 1, x :: xs =>
    if !sep.isEmpty && startsWithL sep (x :: xs) then
      [] :: splitOnAux sep f (List.drop sep.length (x :: xs))
    else
      match splitOnAux sep f xs with
      | [] => [[x]]
      | h :: t => (x :: h) :: t

/-- Model of Python `s.split(sep)` for a nonempty string separator (the
only way the source calls it; Python raises on an empty separator, which
is not modelled). -/
def pySplitOn (sep s : PyStr) : List PyStr := splitOnAux sep s.length s

/-- Fuelled worker for `pyReplace`: leftmost-first, non-overlapping
replacement of a nonempty pattern, exactly Python `s.replace(pat, rep)`. -/
def pyReplaceAux (pat rep : PyStr) : Nat → PyStr → PyStr
  | _, [] => []
  | 0, s => s
  | f + 1, x :: xs =>
    if !pat.isEmpty && startsWithL pat (x :: xs) then
      rep ++ pyReplaceAux pat rep f (List.drop pat.length (x :: xs))
    else
      x :: pyReplaceAux pat rep f xs

/-- Model of Python `s.replace(pat, rep)` for a nonempty pattern (the
source only replaces the nonempty literals `%(sender)` etc.). -/
def pyReplace (s pat rep : PyStr) : PyStr := pyReplaceAux pat rep s.length s

/-- Characters removed by Python `str.strip()` with no argument. -/
def isPySpace (c : Char) : Bool :=
  c = ' ' || c = '\t' || c = '\n' || c = '\x0d' || c = '\x0b' || c = '\x0c'

/-- Model of Python `s.strip()`: drop leading and trailing whitespace. -/
def pyStrip (s : PyStr) : PyStr :=
  ((s.dropWhile isPySpace).reverse.dropWhile isPySpace).reverse

theorem toNat_ofNat_valid (n : Nat) (h : n.isValidChar) : (Char.ofNat n).toNat = n := by
  rw [Char.ofNat, dif_pos h]
  simp [Char.ofNatAux, Char.toNat, UInt32.toNat]

theorem char_toNat_inj (a b : Char) (h : a.toNat = b.toNat) : a = b := by
  apply Char.eq_of_val_eq
  apply UInt32.eq_of_toBitVec_eq
  exact BitVec.eq_of_toNat_eq h

theorem lowerChar_at (c : Char) : (lowerChar c = '@') ↔ (c = '@') := by
  unfold lowerChar
  split_ifs with h
  · constructor
    · intro he
      have h1 : (Char.ofNat (c.toNat + 32)).toNat = c.toNat + 32 :=
        toNat_ofNat_valid _ (Or.inl (by omega))
      rw [he] at h1
      have h2 : ('@' : Char).toNat = 64 := by decide
      omega
    · intro hc
      subst hc
      exact absurd h (by decide)
  · exact Iff.rfl

theorem splitAtCh_ne_nil (c : Char) (s : PyStr) : splitAtCh c s ≠ [] := by
  cases s with
  | nil => simp [splitAtCh]
  | cons x xs => simp only [splitAtCh]; split <;> simp

/-- Lowercasing commutes with splitting at the separator character `@`,
because ASCII lowercasing fixes `@` and maps no other character to it. -/
theorem splitAtCh_lower (s : PyStr) :
    splitAtCh '@' (lowerStr s) = (splitAtCh '@' s).map lowerStr := by
  induction s with
  | nil => simp [splitAtCh, lowerStr]
  | cons x xs ih =>
    simp only [lowerStr, List.map_cons, splitAtCh]
    rw [show List.map lowerChar xs = lowerStr xs from rfl, ih]
    by_cases hx : x = '@'
    · rw [if_pos ((lowerChar_at x).mpr hx), if_pos hx, List.map_cons]; rfl
    · rw [if_neg (fun hc => hx ((lowerChar_at x).mp hc)), if_neg hx, List.map_cons]
      cases h : splitAtCh '@' xs with
      | nil => exact absurd h (splitAtCh_ne_nil '@' xs)
      | cons h' t => simp [lowerStr]

theorem getLastD_map_lowerStr (l : List PyStr) :
    (l.map lowerStr).getLastD [] = lowerStr (l.getLastD []) := by
  induction l with
  | nil => simp [lowerStr]
  | cons x xs ih =>
    cases xs with
    | nil => simp
    | cons y ys => simpa using ih

/-- When the pattern does not occur in the string, Python replace is the
identity. -/
theorem pyReplaceAux_no_occ (pat rep : PyStr) (f : Nat) (s : PyStr)
    (h : containsSub pat s = false) : pyReplaceAux pat rep f s = s := by
  induction f generalizing s with
  | zero => cases s <;> simp [pyReplaceAux]
  | succ f ih =>
    cases s with
    | nil => simp [pyReplaceAux]
    | cons x xs =>
      simp only [containsSub, Bool.or_eq_false_iff] at h
      simp only [pyReplaceAux]
      rw [if_neg, ih xs h.2]
      simp [h.1]

/-- Python exception classes that the embedded code can raise.
`configurationError` and `deliveryError` are getmail's own
`getmailConfigurationError` / `getmailDeliveryError`; the rest are the
Python builtins reachable from the embedded fragments. -/
inductive ExcKind where
  | configurationError
  | deliveryError
  | nameError
  | syntaxError
  | valueError
  | typeError
  | attributeError
deriving DecidableEq

/-- A raised Python exception: its class and its message. -/
structure PyExc where
  kind : ExcKind
  msg : String

/-- Python values occurring in getmail destination configurations. -/
inductive PyVal where
  | str (s : String)
  | bool (b : Bool)
  | int (n : Int)
  | tuple (l : List PyVal)
  | pynone

/-- Python types used as the `type` entry of `_confitems` declarations. -/
inductive PyTy where
  | str
  | bool
  | int
  | tuple
  | noneType
deriving DecidableEq

/-- Model of Python `type(v)` on the embedded value universe (Python 2
`type(True) is bool`, exact class, no subclass identification). -/
def pyTypeOf : PyVal → PyTy
  | .str _ => .str
  | .bool _ => .bool
  | .int _ => .int
  | .tuple _ => .tuple
  | .pynone => .noneType

/-- Model of Python truthiness, as used by `bool(x)`. -/
def truthy : PyVal → Bool
  | .str s => s ≠ ""
  | .bool b => b
  | .int n => n ≠ 0
  | .tuple l => !l.isEmpty
  | .pynone => false

/-- Model of Python 2 `str.lower()` on `String`. -/
def lowerS (s : String) : String := ⟨lowerStr s.data⟩

/-- Numeric value of a digit string. -/
def digitsToNat (l : List Char) : Nat :=
  l.foldl (fun a c => a * 10 + (c.toNat - 48)) 0

/-- Model of the Python builtin `eval` on the fragment of inputs that
getmail configuration coercion can meet in this development: decimal
integer literals evaluate to ints, the literals `True`, `False` and
`None` to themselves, any other identifier-shaped string raises
`NameError` (there is no such variable in the evaluation environment of
baseclasses.py), and anything else is conservatively mapped to
`SyntaxError`.  Note in particular that the lowercase words `false`,
`no`, `off`, `true`, `yes`, `on` are identifiers and raise `NameError`
in Python. -/
def evalPy (s : String) : Except ExcKind PyVal :=
  if s ≠ "" ∧ s.data.all Char.isDigit then .ok (.int (digitsToNat s.data))
  else if s = "True" then .ok (.bool true)
  else if s = "False" then .ok (.bool false)
  else if s = "None" then .ok .pynone
  else
    match s.data with
    | [] => .error .syntaxError
    | c :: rest =>
      if (c.isAlpha || c = '_') && rest.all (fun d => d.isAlphanum || d = '_') then
        .error .nameError
      else .error .syntaxError

/-- Display name of a Python type, used inside error messages only. -/
def tyName : PyTy → String
  | .str => "str"
  | .bool => "bool"
  | .int => "int"
  | .tuple => "tuple"
  | .noneType => "NoneType"

/-- Rendering of a value inside an error message.  Tuple rendering is
abbreviated; no claim depends on the rendering of tuples. -/
def pyRender : PyVal → String
  | .str s => s
  | .bool true => "True"
  | .bool false => "False"
  | .int n => toString n
  | .tuple _ => "(tuple)"
  | .pynone => "None"

/-- Model of the Python coercion call `dtype(v)` performed at
baseclasses.py line 63: `int` of an int/bool succeeds, of a non-numeric
string raises `ValueError`, of a tuple or `None` raises `TypeError`;
`str` of anything succeeds; `tuple` of a tuple succeeds, of a string
yields the tuple of its characters, otherwise raises `TypeError`;
`bool` of anything is truthiness (that case is reached through line 61). -/
def castPy (t : PyTy) (v : PyVal) : Except ExcKind PyVal :=
  match t with
  | .bool => .ok (.bool (truthy v))
  | .int =>
    match v with
    | .int n => .ok (.int n)
    | .bool b => .ok (.int (if b then 1 else 0))
    | .str s =>
      if s ≠ "" ∧ s.data.all Char.isDigit then .ok (.int (digitsToNat s.data))
      else .error .valueError
    | .tuple _ => .error .typeError
    | .pynone => .error .typeError
  | .str => .ok (.str (pyRender v))
  | .tuple =>
    match v with
    | .tuple l => .ok (.tuple l)
    | .str s => .ok (.tuple (s.data.map fun c => .str (String.singleton c)))
    | _ => .error .typeError
  | .noneType => .error .typeError

/-- One entry of a `_confitems` schema tuple: parameter name, declared
type, optional default (baseclasses.py lines 19-25). -/
structure ConfItem where
  name : String
  dtype : PyTy
  default : Option PyVal

/-- The mutable state of a `ConfigurableBase` instance: its `self.conf`
dictionary (an association list in insertion order) and the private
`__confchecked` flag. -/
structure ConfState where
  conf : List (String × PyVal)
  confchecked : Bool

/-- Dictionary lookup `self.conf[name]` / `self.conf.has_key(name)`. -/
def lookupConf (conf : List (String × PyVal)) (n : String) : Option PyVal :=
  (conf.find? (fun kv => kv.1 = n)).map (fun kv => kv.2)

/-- Dictionary update `self.conf[name] = v`. -/
def setConf : List (String × PyVal) → String → PyVal → List (String × PyVal)
  | [], n, v => [(n, v)]
  | (k, w) :: rest, n, v =>
    if k = n then (n, v) :: rest else (k, w) :: setConf rest n v

/-- Model of the `except (ValueError, SyntaxError)` clause at
baseclasses.py lines 64-65: those two exception classes are converted
into the getmail "not of required type" configuration error; any other
exception raised inside the `try` block (in particular `NameError` from
`eval`, and `TypeError`) propagates to the caller unchanged. -/
def convErr (it : ConfItem) (v : PyVal) (e : ExcKind) :
    Except PyExc (List (String × PyVal)) :=
  if e = .valueError ∨ e = .syntaxError then
    .error ⟨.configurationError,
      "configuration value " ++ it.name ++ " (" ++ pyRender v ++
        ") not of required type " ++ tyName it.dtype⟩
  else
    .error ⟨e, "uncaught exception during configuration coercion"⟩

/-- Model of the body of the `for item in self._confitems` loop of
`ConfigurableBase.checkconf`, baseclasses.py lines 40-65, for one schema
item.  If the parameter is absent, the default is installed or a
"missing required configuration directive" error is raised.  If present
with the declared type, nothing happens.  Otherwise coercion is
attempted: for `bool`, lines 57-60 assign False/True for the recognized
word lists, but line 61 then unconditionally overwrites that assignment
with `bool(eval(val))` (the two earlier assignments are dead, which is
why they only appear here as the overwritten `conf1`); for other types
line 63 runs `dtype(eval(val))`.  Calling `.lower()` on a non-string
raises `AttributeError`, and `eval` of a non-string raises `TypeError`;
both propagate. -/
def checkItem (conf : List (String × PyVal)) (it : ConfItem) :
    Except PyExc (List (String × PyVal)) :=
  match lookupConf conf it.name with
  | none =>
    match it.default with
    | some d => .ok (setConf conf it.name d)
    | none =>
      .error ⟨.configurationError,
        "missing required configuration directive " ++ it.name⟩
  | some v =>
    if pyTypeOf v = it.dtype then .ok conf
    else
      if it.dtype = .bool then
        match v with
        | .str s =>
          let conf1 :=
            if lowerS s ∈ ["0", "false", "no", "off"] then
              setConf conf it.name (.bool false)
            else if lowerS s ∈ ["1", "true", "yes", "on"] then
              setConf conf it.name (.bool true)
            else conf
          match evalPy s with
          | .ok w => .ok (setConf conf1 it.name (.bool (truthy w)))
          | .error e => convErr it v e
        | _ => .error ⟨.attributeError, "value has no attribute lower"⟩
      else
        match v with
        | .str s =>
          match evalPy s with
          | .ok w =>
            match castPy it.dtype w with
            | .ok w' => .ok (setConf conf it.name w')
            | .error e => convErr it v e
          | .error e => convErr it v e
        | _ => .error ⟨.typeError, "eval argument must be a string"⟩

/-- Iteration of `checkItem` over the schema in declared order; the
first raised exception aborts the loop. -/
def checkItems : List ConfItem → List (String × PyVal) →
    Except PyExc (List (String × PyVal))
  | [], conf => .ok conf
  | it :: rest, conf =>
    match checkItem conf it with
    | .ok conf' => checkItems rest conf'
    | .error e => .error e

/-- Model of `ConfigurableBase.checkconf`, baseclasses.py lines 36-67:
an early return when `__confchecked` is already set, otherwise the
schema walk followed by setting `__confchecked`. -/
def checkconf (items : List ConfItem) (st : ConfState) : Except PyExc ConfState :=
  if st.confchecked then .ok st
  else
    match checkItems items st.conf with
    | .ok conf' => .ok ⟨conf', true⟩
    | .error e => .error e

/-- State of the mbox file owned by an `Mboxrd` destination: the bytes
of the file and whether this destination currently holds the exclusive
advisory `fcntl` lock on it. -/
structure MboxFile where
  content : List Nat
  locked : Bool

/-- Model of `Mboxrd._deliver_message`, destinations.py lines 201-237.
`w` is the byte sequence written by line 209 (the flattened message with
leading `From ` line, mboxrd escaping and the trailing `os.linesep`);
`failAt = some k` means an `IOError` strikes during the
write/flush/fsync after `k` bytes have reached the file, `failAt = none`
means the write succeeds.  Line 203 snapshots the pre-write stat before
line 204 takes the lock; the best-effort `os.utime` restoration (lines
215-221) catches its own `OSError` and cannot affect the outcome, so it
has no observable effect here; line 232 truncates back to the pre-write
length (its own failure would be swallowed by the bare `except` at line
233 and is not modelled).  `unlock_file` at line 223 sits inside the
`try` block after the write, so it is never reached on the `IOError`
path: the lock stays held there.  On success the method returns `self`
(modelled as `.ok ()`). -/
def mboxrdDeliver (path : String) (st : MboxFile) (w : List Nat)
    (failAt : Option Nat) : Except PyExc Unit × MboxFile :=
  let oldLen := st.content.length
  let st1 : MboxFile := { st with locked := true }
  match failAt with
  | none =>
    let st2 : MboxFile := { st1 with content := st1.content ++ w }
    (.ok (), { st2 with locked := false })
  | some k =>
    let st2 : MboxFile := { st1 with content := st1.content ++ w.take k }
    let st3 : MboxFile := { st2 with content := st2.content.take oldLen }
    (.error ⟨.deliveryError, "failure writing message to mbox file " ++ path⟩, st3)

/-- The `msginfo` dictionary computed by `MDA_qmaillocal._deliver_message`
by the time it reaches the fork (destinations.py lines 350-370). -/
structure QlMsgInfo where
  sender : PyStr
  locPart : PyStr
  dash : PyStr
  ext : PyStr

/-- Model of `MDA_qmaillocal._deliver_message` from its start up to the
`os.fork()` call, destinations.py lines 345-378.  A missing envelope
recipient is rejected at line 348, but the rejection message at line 349
is built as `'...(%s)' % o` where `o` is unbound in this scope, so
Python raises `NameError` instead of the intended
`getmailConfigurationError`.  Otherwise the local part is extracted from
the lowercased recipient (line 352), the `localpart_translate` rewrite
is applied when one of its halves is nonempty (lines 356-363), the
`conf-break` delimiter split is computed (lines 364-370), and then the
root gate at lines 372-374 raises a configuration error when the
effective uid is 0 and `allow_root_commands` is unset.  `.ok` means
control reached the fork. -/
def qmaillocalPrefork (euid : Nat) (allowRoot : Bool) (confBreak : PyStr)
    (xlateFrom xlateTo : PyStr) (sender : PyStr) (recipient : Option PyStr) :
    Except PyExc QlMsgInfo :=
  match recipient with
  | none => .error ⟨.nameError, "name o is not defined"⟩
  | some r =>
    let loc0 := joinWith ['@'] ((splitAtCh '@' (lowerStr r)).dropLast)
    let loc1 :=
      if (!xlateFrom.isEmpty || !xlateTo.isEmpty) && startsWithL xlateFrom loc0 then
        xlateTo ++ loc0.drop xlateFrom.length
      else loc0
    let dashExt :=
      if containsSub confBreak loc1 then
        (confBreak, joinWith confBreak ((pySplitOn confBreak loc1).drop 1))
      else ([], [])
    if euid = 0 && !allowRoot then
      .error ⟨.configurationError,
        "refuse to invoke external commands as root by default"⟩
    else
      .ok ⟨sender, loc1, dashExt.1, dashExt.2⟩

/-- Common leading text of the two qmail-local outcome messages
(destinations.py lines 396 and 398 share `'qmail-local %d '`). -/
def qlPre (pid : Nat) : String := "qmail-local " ++ toString pid ++ " "

/-- Message of the temporary failure raised for exit code 111
(destinations.py line 396). -/
def qlTempMsg (pid : Nat) (err : String) : String :=
  qlPre pid ++ "temporary error (" ++ err ++ ")"

/-- Message of the hard failure raised for any other nonzero exit code
or non-empty stderr (destinations.py line 398). -/
def qlHardMsg (pid exitcode : Nat) (err : String) : String :=
  qlPre pid ++ "error (" ++ toString exitcode ++ ", " ++ err ++ ")"

/-- Model of the parent-side outcome classification of
`MDA_qmaillocal._deliver_message` after waiting for the child,
destinations.py lines 386-400.  The captured stdout and stderr are read
back and stripped (lines 390-391); exit code 111 raises the temporary
delivery error, any other nonzero exit code or non-empty stripped
stderr raises the hard delivery error, otherwise the stripped stdout is
returned in the success string. -/
def qmaillocalWaitResult (pid exitcode : Nat) (rawOut rawErr : String) :
    Except PyExc String :=
  let out : String := ⟨pyStrip rawOut.data⟩
  let err : String := ⟨pyStrip rawErr.data⟩
  if exitcode = 111 then
    .error ⟨.deliveryError, qlTempMsg pid err⟩
  else if exitcode ≠ 0 ∨ err ≠ "" then
    .error ⟨.deliveryError, qlHardMsg pid exitcode err⟩
  else
    .ok ("MDA_qmaillocal (" ++ out ++ ")")

/-- The `msginfo` dictionary of `MDA_external._deliver_message`,
destinations.py lines 504-510, as an association list in insertion
order: the sender always; and when the envelope recipient is known,
the recipient verbatim, the domain taken from the lowercased recipient,
and the local part taken from the recipient without lowercasing. -/
def externalMsginfo (sender : PyStr) (recipient : Option PyStr) :
    List (String × PyStr) :=
  match recipient with
  | none => [("sender", sender)]
  | some r =>
    [("sender", sender),
     ("recipient", r),
     ("domain", (splitAtCh '@' (lowerStr r)).getLastD []),
     ("local", joinWith ['@'] ((splitAtCh '@' r).dropLast))]

/-- Model of `MDA_external._deliver_message` from its start to the
`os.fork()` call, destinations.py lines 501-518: the `msginfo`
construction followed by the root gate at lines 513-514, which raises a
configuration error when the effective uid is 0, `allow_root_commands`
is unset and no alternate `user` is configured.  `.ok` carries the
`msginfo` that the child will use and means control reached the fork. -/
def externalPrefork (euid : Nat) (allowRoot : Bool) (user : Option String)
    (sender : PyStr) (recipient : Option PyStr) :
    Except PyExc (List (String × PyStr)) :=
  let msginfo := externalMsginfo sender recipient
  if euid = 0 && !allowRoot && user.isNone then
    .error ⟨.configurationError,
      "refuse to invoke external commands as root by default"⟩
  else .ok msginfo

/-- The literal placeholder text `%(key)` used by argument expansion. -/
def phKey (k : String) : PyStr := ('%' :: '(' :: k.data) ++ [')']

/-- Model of the argument-expansion loop of
`MDA_external._deliver_command`, destinations.py lines 490-493: for one
configured argument template, each `(key, value)` of `msginfo` has its
`%(key)` occurrences literally replaced by `value`.  `arg` stands for
the template after `expand_user_vars` (a utilities-module helper,
outside this package, which expands `~` and environment variables and
does not touch percent placeholders).  Python 2 iterates the `msginfo`
dict in unspecified order; it is modelled in insertion order, which is
observably identical unless a substituted value itself contains a
placeholder. -/
def expandOneArg (msginfo : List (String × PyStr)) (arg : PyStr) : PyStr :=
  msginfo.foldl (fun a kv => pyReplace a (phKey kv.1) kv.2) arg

/-- Outcome of classifying one destination-specification string in
`MultiDestinationBase._get_destination`. -/
inductive DestSpec where
  | sectionName (name : String)
  | maildir (p : PyStr)
  | mboxFile (p : PyStr)

/-- Model of the classification chain of
`MultiDestinationBase._get_destination`, destinations.py lines 558-584,
applied to the specification after `expand_user_vars` (line 559): a
string that starts with `[` and ends with `]` names a configuration
section (resolved against the external configuration store, not
modelled here); otherwise a string starting with `/` or `.` and ending
with `/` is a maildir; otherwise a string starting with `/` or `.` is
an mboxrd file; everything else raises the "not of recognized type"
configuration error (line 583). -/
def getDestinationClassify (p : PyStr) : Except PyExc DestSpec :=
  if startsWithL ['['] p && endsWithL [']'] p then
    .ok (.sectionName ⟨(p.drop 1).dropLast⟩)
  else if (startsWithL ['/'] p || startsWithL ['.'] p) && endsWithL ['/'] p then
    .ok (.maildir p)
  else if startsWithL ['/'] p || startsWithL ['.'] p then
    .ok (.mboxFile p)
  else
    .error ⟨.configurationError,
      "specified destination " ++ String.mk p ++ " not of recognized type"⟩

/-- Whether a configured `locals` item is a 2-tuple of two strings, the
shape required by the validation loop at destinations.py lines 712-714. -/
def isStrPairVal : PyVal → Bool
  | .tuple [.str _, .str _] => true
  | _ => false

/-- The (pattern, destination-path) pair held by a well-formed `locals`
item. -/
def extractStrPair : PyVal → String × String
  | .tuple [.str a, .str b] => (a, b)
  | _ => ("", "")

/-- The special-case test of destinations.py line 710:
`len(locals) == 2` and both elements are strings. -/
def isBaseStrPair : List PyVal → Bool
  | [.str _, .str _] => true
  | _ => false

/-- Model of the `locals` structuring part of `MultiSorter`
configuration processing, destinations.py lines 707-715: a `locals`
value that is itself a 2-tuple of two strings is wrapped so that it
counts as a single (pattern, destination) route (lines 710-711); then
every item must be a 2-tuple of two strings or the "invalid syntax for
locals" configuration error is raised (lines 712-714).  The subsequent
per-route destination resolution and `re.IGNORECASE` pattern
compilation (lines 715-723) consult the filesystem and the regex
engine and are outside this model. -/
def parseLocals (ls : List PyVal) : Except PyExc (List (String × String)) :=
  let ls1 := if isBaseStrPair ls then [PyVal.tuple ls] else ls
  if ls1.all isStrPairVal then .ok (ls1.map extractStrPair)
  else .error ⟨.configurationError, "invalid syntax for locals ; see documentation"⟩

/-- The route loop of `MultiSorter._deliver_message`, destinations.py
lines 745-750: every route is tested in declared order, and the
destination of every matching route receives the message.  The returned
list is the ordered list of route destinations delivered to. -/
def msMatched {α : Type} : List (PyStr × α) → PyStr → List α
  | [], _ => []
  | (pat, d) :: rest, r =>
    if reSearchIC pat r then d :: msMatched rest r else msMatched rest r

/-- Model of `MultiSorter._deliver_message`, destinations.py lines
740-757, returning the ordered list of destinations the message is
delivered to.  With an unknown recipient and at least one route, line
743 takes the error branch, but the message at line 744 is built as
`'...(%s)' % o` with `o` unbound, so Python raises `NameError` instead
of the intended `getmailConfigurationError`.  Otherwise each route is
tested in order and every match is delivered to; the default
destination is delivered to exactly when no route matched (lines
751-757). -/
def msDeliver {α : Type} (targets : List (PyStr × α)) (dflt : α)
    (recipient : Option PyStr) : Except PyExc (List α) :=
  match recipient with
  | none =>
    if !targets.isEmpty then .error ⟨.nameError, "name o is not defined"⟩
    else .ok [dflt]
  | some r =>
    let ds := msMatched targets r
    if ds.isEmpty then .ok [dflt] else .ok ds

theorem msMatched_eq_filter {α : Type} (ts : List (PyStr × α)) (r : PyStr) :
    msMatched ts r = (ts.filter fun t => reSearchIC t.1 r).map Prod.snd := by
  induction ts with
  | nil => rfl
  | cons t rest ih =>
    obtain ⟨pat, d⟩ := t
    simp only [msMatched, List.filter_cons]
    by_cases h : reSearchIC pat r
    · simp [h, ih]
    · simp only at h
      simp [h, ih]

theorem msMatched_congr {α : Type} (ts : List (PyStr × α)) (r r' : PyStr)
    (h : lowerStr r' = lowerStr r) : msMatched ts r' = msMatched ts r := by
  induction ts with
  | nil => rfl
  | cons t rest ih =>
    obtain ⟨pat, d⟩ := t
    simp only [msMatched, reSearchIC, h, ih]

/-- C1, counterexample.  A concrete failing Mboxrd delivery (empty mbox,
two-byte message, `IOError` after one byte): the operation fails with a
delivery error and the file is truncated back, but the advisory lock is
still held when the call returns — contradicting the claim that the
lock is released before returning on the failure path. -/
theorem mboxrd_failure_lock_counterexample :
    (mboxrdDeliver "/m" ⟨[], false⟩ [70, 10] (some 1)).1 =
      .error ⟨.deliveryError, "failure writing message to mbox file /m"⟩ ∧
    (mboxrdDeliver "/m" ⟨[], false⟩ [70, 10] (some 1)).2.content = [] ∧
    (mboxrdDeliver "/m" ⟨[], false⟩ [70, 10] (some 1)).2.locked = true :=
  ⟨rfl, rfl, rfl⟩

/-- C1, amended: for every Mboxrd delivery in which an I/O failure
occurs while writing, the delivery truncates the mbox file back to its
pre-write size and fails with a delivery error, but the lock is NOT
released before returning — it remains held (until the destination is
torn down); on a successful delivery the message is appended and the
lock is released before returning. -/
theorem mboxrdDeliver_failure_truncates_success_unlocks (path : String)
    (st : MboxFile) (w : List Nat) (failAt : Option Nat) :
    (∀ k, failAt = some k →
      (mboxrdDeliver path st w failAt).1 =
        .error ⟨.deliveryError, "failure writing message to mbox file " ++ path⟩ ∧
      (mboxrdDeliver path st w failAt).2.content = st.content ∧
      (mboxrdDeliver path st w failAt).2.locked = true) ∧
    (failAt = none →
      (mboxrdDeliver path st w failAt).1 = .ok () ∧
      (mboxrdDeliver path st w failAt).2.content = st.content ++ w ∧
      (mboxrdDeliver path st w failAt).2.locked = false) := by
  constructor
  · intro k hk
    subst hk
    refine ⟨rfl, ?_, rfl⟩
    simp only [mboxrdDeliver]
    exact List.take_left st.content (w.take k)
  · intro hn
    subst hn
    exact ⟨rfl, rfl, rfl⟩

/-- C1, witness for `mboxrdDeliver_failure_truncates_success_unlocks`
at concrete inputs, one failing and one successful delivery. -/
theorem mboxrdDeliver_failure_truncates_success_unlocks_witness :
    ((mboxrdDeliver "/m" ⟨[72], false⟩ [70] (some 0)).2.content = [72] ∧
      (mboxrdDeliver "/m" ⟨[72], false⟩ [70] (some 0)).2.locked = true) ∧
    ((mboxrdDeliver "/m" ⟨[72], false⟩ [70] none).2.content = [72, 70] ∧
      (mboxrdDeliver "/m" ⟨[72], false⟩ [70] none).2.locked = false) :=
  ⟨⟨((mboxrdDeliver_failure_truncates_success_unlocks "/m" ⟨[72], false⟩ [70]
        (some 0)).1 0 rfl).2.1,
    ((mboxrdDeliver_failure_truncates_success_unlocks "/m" ⟨[72], false⟩ [70]
        (some 0)).1 0 rfl).2.2⟩,
   ⟨((mboxrdDeliver_failure_truncates_success_unlocks "/m" ⟨[72], false⟩ [70]
        none).2 rfl).2.1,
    ((mboxrdDeliver_failure_truncates_success_unlocks "/m" ⟨[72], false⟩ [70]
        none).2 rfl).2.2⟩⟩

/-- C2: for a MultiSorter with a non-empty route list and a known
recipient, delivery evaluates the routes exhaustively in declared
order: the destinations delivered to are exactly the destinations of
the matching routes, in route order (so a recipient matching several
routes is delivered to all of them), and the default destination is
delivered to if and only if no route matches; matching is insensitive
to the case of the recipient. -/
theorem multiSorter_routing {α : Type} (ts : List (PyStr × α)) (dflt : α)
    (r : PyStr) (_hts : ts ≠ []) :
    msDeliver ts dflt (some r) =
      .ok (if (ts.filter fun t => reSearchIC t.1 r).isEmpty then [dflt]
           else (ts.filter fun t => reSearchIC t.1 r).map Prod.snd) ∧
    (∀ pat d, (pat, d) ∈ ts → reSearchIC pat r = true →
      d ∈ (ts.filter fun t => reSearchIC t.1 r).map Prod.snd) ∧
    (∀ r', lowerStr r' = lowerStr r →
      msDeliver ts dflt (some r') = msDeliver ts dflt (some r)) := by
  refine ⟨?_, ?_, ?_⟩
  · simp only [msDeliver, msMatched_eq_filter]
    cases hf : ts.filter fun t => reSearchIC t.1 r with
    | nil => rfl
    | cons a l => rfl
  · intro pat d hmem hmatch
    exact List.mem_map.mpr ⟨(pat, d), List.mem_filter.mpr ⟨hmem, by simpa using hmatch⟩, rfl⟩
  · intro r' h
    simp only [msDeliver, msMatched_congr ts r r' h]

/-- C2, witness for `multiSorter_routing`: two routes, a recipient that
case-insensitively matches only the first; the message goes to that
route's destination alone. -/
theorem multiSorter_routing_witness :
    msDeliver [("jason".data, (0 : Nat)), ("sales".data, 1)] 9
      (some "JASON@example.org".data) = .ok [0] :=
  (multiSorter_routing [("jason".data, (0 : Nat)), ("sales".data, 1)] 9
      "JASON@example.org".data (List.cons_ne_nil _ _)).1.trans (by rfl)

/-- C3: the root security gate.  For MDA_qmaillocal with a known
recipient, and for MDA_external with any recipient and no alternate
user, a delivery attempted with effective uid 0 and
`allow_root_commands` unset fails with the "refuse to invoke external
commands as root" configuration error before the fork is reached.  The
first conjunct exhibits the failing corner: an MDA_qmaillocal delivery
with an unknown recipient still fails before the fork, but with
`NameError` (the unbound `o` in the message formatting of
destinations.py line 349) instead of the configuration error the claim
promises. -/
theorem root_gate_before_fork :
    qmaillocalPrefork 0 false ['-'] [] [] "s".data none =
      .error ⟨.nameError, "name o is not defined"⟩ ∧
    (∀ (confBreak xf xt sender r : PyStr),
      qmaillocalPrefork 0 false confBreak xf xt sender (some r) =
        .error ⟨.configurationError,
          "refuse to invoke external commands as root by default"⟩) ∧
    (∀ (sender : PyStr) (recipient : Option PyStr),
      externalPrefork 0 false none sender recipient =
        .error ⟨.configurationError,
          "refuse to invoke external commands as root by default"⟩) :=
  ⟨rfl, fun _ _ _ _ _ => rfl, fun _ _ => rfl⟩

/-- C4: boolean configuration coercion.  The claim says `checkconf`
maps the word lists to False/True; in the code the assignments of
baseclasses.py lines 57-60 are dead because line 61 unconditionally
overwrites them with `bool(eval(val))`, and `eval` of the words `off`,
`no`, `true`, `yes`, `on`, `false` raises `NameError`, which the
`except (ValueError, SyntaxError)` clause does not catch.  Only the
values `0` and `1` (and the exact literals `True`/`False`) behave as
claimed; and an unconvertible value such as `abc` for an int parameter
likewise escapes as `NameError` instead of the promised "not of
required type" configuration error. -/
theorem checkconf_bool_coercion_bug :
    checkconf [⟨"flag", .bool, none⟩] ⟨[("flag", .str "off")], false⟩ =
      .error ⟨.nameError, "uncaught exception during configuration coercion"⟩ ∧
    checkconf [⟨"flag", .bool, none⟩] ⟨[("flag", .str "no")], false⟩ =
      .error ⟨.nameError, "uncaught exception during configuration coercion"⟩ ∧
    checkconf [⟨"flag", .bool, none⟩] ⟨[("flag", .str "TRUE")], false⟩ =
      .error ⟨.nameError, "uncaught exception during configuration coercion"⟩ ∧
    checkconf [⟨"flag", .bool, none⟩] ⟨[("flag", .str "0")], false⟩ =
      .ok ⟨[("flag", .bool false)], true⟩ ∧
    checkconf [⟨"flag", .bool, none⟩] ⟨[("flag", .str "1")], false⟩ =
      .ok ⟨[("flag", .bool true)], true⟩ ∧
    checkconf [⟨"n", .int, none⟩] ⟨[("n", .str "abc")], false⟩ =
      .error ⟨.nameError, "uncaught exception during configuration coercion"⟩ :=
  ⟨rfl, rfl, rfl, rfl, rfl, rfl⟩

theorem qlMsg_distinct (pid c : Nat) (e e' : String) :
    qlTempMsg pid e ≠ qlHardMsg pid c e' := by
  intro h
  have hd := congrArg String.data h
  simp only [qlTempMsg, qlHardMsg, qlPre, String.data_append, List.append_assoc] at hd
  replace hd := List.append_cancel_left hd
  replace hd := List.append_cancel_left hd
  replace hd := List.append_cancel_left hd
  have hh := congrArg (fun l => List.headD l ' ') hd
  simp at hh

/-- C5: classification of a terminated qmail-local child
(destinations.py lines 386-400).  Exit code 111 raises the temporary
delivery error; any other nonzero exit code, or a non-empty captured
(stripped) stderr, raises the hard delivery error; exit code 0 with
empty stderr succeeds with the captured stdout in the result.  The two
failure messages can never coincide, so the temporary failure is
distinguishable from the hard one. -/
theorem qmaillocal_exit_classification (pid exitcode : Nat)
    (rawOut rawErr : String) :
    (exitcode = 111 →
      qmaillocalWaitResult pid exitcode rawOut rawErr =
        .error ⟨.deliveryError, qlTempMsg pid ⟨pyStrip rawErr.data⟩⟩) ∧
    (exitcode ≠ 111 → exitcode ≠ 0 ∨ (⟨pyStrip rawErr.data⟩ : String) ≠ "" →
      qmaillocalWaitResult pid exitcode rawOut rawErr =
        .error ⟨.deliveryError, qlHardMsg pid exitcode ⟨pyStrip rawErr.data⟩⟩) ∧
    (exitcode = 0 → (⟨pyStrip rawErr.data⟩ : String) = "" →
      qmaillocalWaitResult pid exitcode rawOut rawErr =
        .ok ("MDA_qmaillocal (" ++ (⟨pyStrip rawOut.data⟩ : String) ++ ")")) ∧
    (∀ e c e', qlTempMsg pid e ≠ qlHardMsg pid c e') := by
  refine ⟨?_, ?_, ?_, fun e c e' => qlMsg_distinct pid c e e'⟩
  · intro h
    subst h
    simp [qmaillocalWaitResult]
  · intro h1 h2
    simp only [qmaillocalWaitResult]
    rw [if_neg h1, if_pos h2]
  · intro h0 he
    subst h0
    simp only [qmaillocalWaitResult]
    rw [if_neg (by decide), if_neg (by simp [he])]

/-- C5, witness for `qmaillocal_exit_classification` at exit codes 111,
1 and 0. -/
theorem qmaillocal_exit_classification_witness :
    qmaillocalWaitResult 7 111 "out" "err" =
      .error ⟨.deliveryError, qlTempMsg 7 "err"⟩ ∧
    qmaillocalWaitResult 7 1 "out" "" =
      .error ⟨.deliveryError, qlHardMsg 7 1 ""⟩ ∧
    qmaillocalWaitResult 7 0 "ok" "" = .ok "MDA_qmaillocal (ok)" :=
  ⟨(qmaillocal_exit_classification 7 111 "out" "err").1 rfl,
   (qmaillocal_exit_classification 7 1 "out" "").2.1 (by decide)
     (Or.inl (by decide)),
   (qmaillocal_exit_classification 7 0 "ok" "").2.2.1 rfl rfl⟩

/-- C6: a MultiSorter with at least one route and an unknown recipient
refuses delivery — but via `NameError` (the unbound `o` in the message
formatting at destinations.py line 744), not via the
`getmailConfigurationError` the claim promises. -/
theorem multiSorter_unknown_recipient_nameerror :
    msDeliver [("p".data, (0 : Nat))] 1 none =
      .error ⟨.nameError, "name o is not defined"⟩ ∧
    ExcKind.nameError ≠ ExcKind.configurationError :=
  ⟨rfl, by decide⟩

/-- C7: classification of a destination specification string
(destinations.py lines 558-584).  A bracketed string names a
configuration section; otherwise a string starting with `/` or `.` is a
maildir when it ends with `/` and an mbox file when it does not; every
remaining string fails with the "not of recognized type" configuration
error. -/
theorem destination_classification (p : PyStr) :
    (startsWithL ['['] p = true → endsWithL [']'] p = true →
      getDestinationClassify p = .ok (.sectionName ⟨(p.drop 1).dropLast⟩)) ∧
    (¬(startsWithL ['['] p = true ∧ endsWithL [']'] p = true) →
      (startsWithL ['/'] p = true ∨ startsWithL ['.'] p = true) →
      endsWithL ['/'] p = true →
      getDestinationClassify p = .ok (.maildir p)) ∧
    (¬(startsWithL ['['] p = true ∧ endsWithL [']'] p = true) →
      (startsWithL ['/'] p = true ∨ startsWithL ['.'] p = true) →
      endsWithL ['/'] p = false →
      getDestinationClassify p = .ok (.mboxFile p)) ∧
    (¬(startsWithL ['['] p = true ∧ endsWithL [']'] p = true) →
      startsWithL ['/'] p = false → startsWithL ['.'] p = false →
      getDestinationClassify p = .error ⟨.configurationError,
        "specified destination " ++ String.mk p ++ " not of recognized type"⟩) := by
  have hb : ∀ (h : ¬(startsWithL ['['] p = true ∧ endsWithL [']'] p = true)),
      (startsWithL ['['] p && endsWithL [']'] p) = false := by
    intro h
    cases hA : startsWithL ['['] p <;> cases hB : endsWithL [']'] p <;> simp_all
  refine ⟨?_, ?_, ?_, ?_⟩
  · intro h1 h2
    simp [getDestinationClassify, h1, h2]
  · intro h0 hs he
    rcases hs with hs | hs <;> simp [getDestinationClassify, hb h0, hs, he]
  · intro h0 hs he
    rcases hs with hs | hs <;> simp [getDestinationClassify, hb h0, hs, he]
  · intro h0 h3 h4
    simp [getDestinationClassify, hb h0, h3, h4]

/-- C7, witness for `destination_classification` on one input of each
of the four classes. -/
theorem destination_classification_witness :
    getDestinationClassify "[a]".data = .ok (.sectionName "a") ∧
    getDestinationClassify "/m/".data = .ok (.maildir "/m/".data) ∧
    getDestinationClassify "./box".data = .ok (.mboxFile "./box".data) ∧
    getDestinationClassify "x".data = .error ⟨.configurationError,
      "specified destination x not of recognized type"⟩ :=
  ⟨(destination_classification "[a]".data).1 rfl rfl,
   (destination_classification "/m/".data).2.1 (by decide) (Or.inl rfl) rfl,
   (destination_classification "./box".data).2.2.1 (by decide) (Or.inr rfl) rfl,
   (destination_classification "x".data).2.2.2 (by decide) rfl rfl⟩

/-- C8: validation is a once-only operation.  If `checkconf` has
succeeded on an instance, invoking it again returns successfully and
leaves the whole configuration state (every value and the flag)
unchanged. -/
theorem checkconf_second_call_noop (items : List ConfItem) (st st' : ConfState)
    (h : checkconf items st = .ok st') :
    checkconf items st' = .ok st' := by
  unfold checkconf at h ⊢
  by_cases hc : st.confchecked
  · rw [if_pos hc] at h
    injection h with h2
    subst h2
    rw [if_pos hc]
  · rw [if_neg hc] at h
    cases hm : checkItems items st.conf with
    | ok conf' =>
      rw [hm] at h
      injection h with h2
      subst h2
      rfl
    | error e =>
      rw [hm] at h
      exact Except.noConfusion h

/-- C8, witness for `checkconf_second_call_noop`: a one-item schema
whose first validation succeeds; the second call returns the same state. -/
theorem checkconf_second_call_noop_witness :
    checkconf [⟨"path", .str, none⟩] ⟨[("path", .str "/m")], true⟩ =
      .ok ⟨[("path", .str "/m")], true⟩ :=
  checkconf_second_call_noop [⟨"path", .str, none⟩]
    ⟨[("path", .str "/m")], false⟩ ⟨[("path", .str "/m")], true⟩ rfl

/-- C9: structuring of the MultiSorter `locals` configuration
(destinations.py lines 707-715).  A `locals` that is itself a 2-tuple
of two strings counts as one (pattern, destination) route; any other
`locals` tuple yields one route per item when every item is a 2-tuple
of two strings, and the "invalid syntax for locals" configuration error
as soon as some item is not. -/
theorem multiSorter_locals_structuring :
    (∀ a b : String, parseLocals [.str a, .str b] = .ok [(a, b)]) ∧
    (∀ ls : List PyVal, isBaseStrPair ls = false →
      (ls.all isStrPairVal = true → parseLocals ls = .ok (ls.map extractStrPair)) ∧
      (ls.all isStrPairVal = false → parseLocals ls =
        .error ⟨.configurationError,
          "invalid syntax for locals ; see documentation"⟩)) := by
  constructor
  · intro a b
    rfl
  · intro ls hbase
    constructor
    · intro hall
      simp [parseLocals, hbase, hall]
    · intro hall
      simp [parseLocals, hbase, hall]

/-- C9, witness for `multiSorter_locals_structuring`: the two-string
special case, a well-formed two-route `locals`, and a malformed item. -/
theorem multiSorter_locals_structuring_witness :
    parseLocals [.str "p", .str "/d/"] = .ok [("p", "/d/")] ∧
    parseLocals [.tuple [.str "p", .str "/d/"], .tuple [.str "q", .str "/e/"]] =
      .ok [("p", "/d/"), ("q", "/e/")] ∧
    parseLocals [.tuple [.str "p"]] =
      .error ⟨.configurationError,
        "invalid syntax for locals ; see documentation"⟩ :=
  ⟨multiSorter_locals_structuring.1 "p" "/d/",
   (multiSorter_locals_structuring.2
     [.tuple [.str "p", .str "/d/"], .tuple [.str "q", .str "/e/"]] rfl).1 rfl,
   (multiSorter_locals_structuring.2 [.tuple [.str "p"]] rfl).2 rfl⟩

/-- C10: MDA_external placeholder values (destinations.py lines
504-510 and 488-493).  With a known recipient, the `%(domain)` value is
the domain part of the recipient lowercased, while `%(recipient)` and
`%(local)` are computed from the recipient without lowercasing; with an
unknown recipient the dictionary holds only the sender, so expansion
replaces only `%(sender)` and an argument not mentioning `%(sender)` is
left verbatim, placeholders included. -/
theorem external_placeholder_values (sender r arg : PyStr) :
    (externalMsginfo sender (some r)).lookup "domain" =
      some (lowerStr ((splitAtCh '@' r).getLastD [])) ∧
    (externalMsginfo sender (some r)).lookup "recipient" = some r ∧
    (externalMsginfo sender (some r)).lookup "local" =
      some (joinWith ['@'] ((splitAtCh '@' r).dropLast)) ∧
    externalMsginfo sender none = [("sender", sender)] ∧
    expandOneArg (externalMsginfo sender none) arg =
      pyReplace arg (phKey "sender") sender ∧
    (containsSub (phKey "sender") arg = false →
      expandOneArg (externalMsginfo sender none) arg = arg) := by
  refine ⟨?_, rfl, rfl, rfl, rfl, ?_⟩
  · have h1 : (externalMsginfo sender (some r)).lookup "domain" =
        some ((splitAtCh '@' (lowerStr r)).getLastD []) := rfl
    rw [h1, splitAtCh_lower, getLastD_map_lowerStr]
  · intro hno
    exact pyReplaceAux_no_occ (phKey "sender") sender arg.length arg hno

/-- C10, witness for `external_placeholder_values` on a mixed-case
recipient and on an argument whose only placeholder is `%(recipient)`. -/
theorem external_placeholder_values_witness :
    (externalMsginfo "s".data (some "JoE@Ex.Org".data)).lookup "domain" =
      some "ex.org".data ∧
    (externalMsginfo "s".data (some "JoE@Ex.Org".data)).lookup "recipient" =
      some "JoE@Ex.Org".data ∧
    (externalMsginfo "s".data (some "JoE@Ex.Org".data)).lookup "local" =
      some "JoE".data ∧
    expandOneArg (externalMsginfo "s".data none) (phKey "recipient") =
      phKey "recipient" :=
  ⟨by
    have h := (external_placeholder_values "s".data "JoE@Ex.Org".data []).1
    simpa using h,
   (external_placeholder_values "s".data "JoE@Ex.Org".data []).2.1,
   (external_placeholder_values "s".data "JoE@Ex.Org".data []).2.2.1,
   (external_placeholder_values "s".data [] (phKey "recipient")).2.2.2.2.2 rfl⟩

end GetmailProof
